import Mathlib

/-!
Shallow embedding of the kompanion reading-progress core
(`kompanion_py/domains/sync/{repository,service}.py`,
`kompanion_py/domains/stats/repository.py`, `kompanion_py/models/progress.py`).

Modelling choices:
* UUID identifiers are opaque comparable values, embedded as `Nat`.
* `datetime` timestamps carry second resolution (they are produced by
  `datetime.utcfromtimestamp(timestamp_int)`), so a timestamp is embedded as
  the `Int` of Unix seconds; `timedelta.total_seconds()` of a difference is
  the `Int` difference.
* Python `float` percentages are embedded as `ℚ` (exact arithmetic on the
  values the claims use).
* A store (`InMemoryProgressRepository._progress_entries`) is a
  `List Progress`; `Progress.copy(deep=True)` is the identity on our
  immutable values.
* Python's `list.sort` / `sorted` are stable sorts, and a stable sort's
  output is uniquely determined by the comparator and the input order, so
  they are embedded as `List.insertionSort` (Mathlib's stable sort) with the
  corresponding relation; `reverse=True` becomes the reversed relation.
* Python `dict`s (insertion-ordered, with in-place value update) are
  embedded as association lists updated in place.
-/

/-- `kompanion_py/models/progress.py`: the `Progress` pydantic model. -/
structure Progress where
  document_id : Nat
  user_id : Option Nat
  percentage : ℚ
  progress_detail : String
  device_name : String
  device_id : Option Nat
  timestamp : Int
  deriving DecidableEq, Repr

/-- `kompanion_py/models/book.py`: the `Book` model, restricted to the fields
the stats engine hands back (`id`, `title`, `author`). -/
structure Book where
  id : Nat
  title : String
  author : Option String
  deriving DecidableEq, Repr

namespace Kompanion

/-- The `for entry in self._progress_entries` loop of
`InMemoryProgressRepository.save_progress`, building `new_entries` with the
`updated` flag; the trailing `if not updated: new_entries.append(...)` is the
base case. -/
def save_progress_loop (progress : Progress) : List Progress → Bool → List Progress
  | [], updated => if updated then [] else [progress]
  | entry :: rest, updated =>
    if entry.document_id = progress.document_id ∧ entry.device_id = progress.device_id then
      if progress.timestamp ≥ entry.timestamp then
        if updated then save_progress_loop progress rest updated
        else progress :: save_progress_loop progress rest true
      else entry :: save_progress_loop progress rest updated
    else entry :: save_progress_loop progress rest updated

/-- `InMemoryProgressRepository.save_progress`: returns the new list of
stored entries together with the value returned to the caller
(`return progress.copy(deep=True)`). -/
def save_progress (store : List Progress) (progress : Progress) :
    List Progress × Progress :=
  (save_progress_loop progress store false, progress)

/-- Descending-timestamp order used by `sort(key=lambda p: p.timestamp, reverse=True)`. -/
def tsDesc (a b : Progress) : Prop := b.timestamp ≤ a.timestamp

instance : DecidableRel tsDesc := fun a b => by unfold tsDesc; infer_instance

/-- `InMemoryProgressRepository.get_latest_progress`. -/
def get_latest_progress (store : List Progress) (document_id user_id : Nat) :
    Option Progress :=
  let user_doc_progress := store.filter fun p =>
    decide (p.document_id = document_id ∧ p.user_id = some user_id)
  if user_doc_progress = [] then none
  else (user_doc_progress.insertionSort tsDesc).head?

/-- Descending lexicographic order on `(document_id, timestamp)` used by
`sort(key=lambda p: (p.document_id, p.timestamp), reverse=True)`. -/
def docTsDesc (a b : Progress) : Prop :=
  b.document_id < a.document_id ∨
    (b.document_id = a.document_id ∧ b.timestamp ≤ a.timestamp)

instance : DecidableRel docTsDesc := fun a b => by unfold docTsDesc; infer_instance

/-- `InMemoryProgressRepository.get_all_progress_for_user`. -/
def get_all_progress_for_user (store : List Progress) (user_id : Nat) :
    List Progress :=
  (store.filter fun p => decide (p.user_id = some user_id)).insertionSort docTsDesc

/-- `InMemoryProgressRepository.get_progress_for_document_and_device`. -/
def get_progress_for_document_and_device (store : List Progress)
    (document_id device_id : Nat) : Option Progress :=
  let doc_device_progress := store.filter fun p =>
    decide (p.document_id = document_id ∧ p.device_id = some device_id)
  if doc_device_progress = [] then none
  else (doc_device_progress.insertionSort tsDesc).head?

/-- `ProgressService.submit_progress`: converts the Unix timestamp (the
identity at our second-resolution embedding of `datetime.utcfromtimestamp`),
defaults `progress_detail` to `""`, constructs the `Progress` and delegates
to `save_progress`.  The Python body contains no validation of any argument
and no other exit path, so it is a total function. -/
def submit_progress (store : List Progress) (user_id document_id : Nat)
    (percentage : ℚ) (progress_detail : Option String) (device_name : String)
    (device_id : Option Nat) (timestamp_int : Int) : List Progress × Progress :=
  let dt_timestamp : Int := timestamp_int
  let progress_data : Progress :=
    { document_id := document_id
      user_id := some user_id
      percentage := percentage
      progress_detail := progress_detail.getD ""
      device_name := device_name
      device_id := device_id
      timestamp := dt_timestamp }
  save_progress store progress_data

/-! ### Stats repository (`kompanion_py/domains/stats/repository.py`) -/

/-- One step of building `latest_progress_per_book`: a Python `dict` update,
replacing in place when the key exists and the new timestamp is strictly
greater, appending at the end when the key is new. -/
def latest_update (acc : List (Nat × Progress)) (p : Progress) :
    List (Nat × Progress) :=
  match acc with
  | [] => [(p.document_id, p)]
  | (d, q) :: rest =>
    if d = p.document_id then
      if p.timestamp > q.timestamp then (d, p) :: rest else (d, q) :: rest
    else (d, q) :: latest_update rest p

/-- The `latest_progress_per_book` dictionary computed by the stats methods:
for each `p` in iteration order, keep the entry with strictly greater
timestamp (first occurrence wins on ties). -/
def latest_progress_per_book (all_progress : List Progress) :
    List (Nat × Progress) :=
  all_progress.foldl latest_update []

/-- `InMemoryStatsRepository.get_total_books_started`: the size of the set
`{p.document_id for p in all_progress if p.percentage > 0}`. -/
def get_total_books_started (store : List Progress) (user_id : Nat) : Nat :=
  let all_progress := get_all_progress_for_user store user_id
  if all_progress = [] then 0
  else (((all_progress.filter fun p => decide (0 < p.percentage)).map
    (fun p => p.document_id)).dedup).length

/-- Ascending-timestamp order used by `sort(key=lambda p: p.timestamp)`. -/
def tsAsc (a b : Progress) : Prop := a.timestamp ≤ b.timestamp

instance : DecidableRel tsAsc := fun a b => by unfold tsAsc; infer_instance

/-- One step of grouping by `document_id` into the insertion-ordered
`defaultdict(list)` `progress_by_doc`. -/
def group_update (acc : List (Nat × List Progress)) (p : Progress) :
    List (Nat × List Progress) :=
  match acc with
  | [] => [(p.document_id, [p])]
  | (d, ps) :: rest =>
    if d = p.document_id then (d, ps ++ [p]) :: rest
    else (d, ps) :: group_update rest p

/-- `progress_by_doc`: group the (sorted) progress list by `document_id`. -/
def progress_by_doc (all_progress : List Progress) :
    List (Nat × List Progress) :=
  all_progress.foldl group_update []

/-- The inner `for i in range(len(progresses) - 1)` loop of
`get_total_reading_time_estimate`: sum consecutive deltas that are strictly
positive, strictly under the 2-hour cap, and along which the percentage
strictly increased. -/
def pair_time_sum : List Progress → Int
  | a :: b :: rest =>
    (if b.timestamp - a.timestamp < 7200 ∧ 0 < b.timestamp - a.timestamp ∧
        a.percentage < b.percentage
     then b.timestamp - a.timestamp else 0) + pair_time_sum (b :: rest)
  | _ => 0

/-- `InMemoryStatsRepository.get_total_reading_time_estimate` (the result is
a `timedelta`, embedded as its total seconds). -/
def get_total_reading_time_estimate (store : List Progress) (user_id : Nat) :
    Int :=
  let all_progress := get_all_progress_for_user store user_id
  if all_progress.length < 2 then 0
  else
    let sorted_all := all_progress.insertionSort tsAsc
    (progress_by_doc sorted_all).foldl
      (fun total_time dps =>
        if dps.2.length < 2 then total_time
        else total_time + pair_time_sum (dps.2.insertionSort tsAsc))
      0

/-- Descending-percentage order on the `(document_id, progress)` items of
`latest_progress_per_book`, used by
`sorted(..., key=lambda item: item[1].percentage, reverse=True)`. -/
def pctDesc (a b : Nat × Progress) : Prop :=
  b.2.percentage ≤ a.2.percentage

instance : DecidableRel pctDesc := fun a b => by unfold pctDesc; infer_instance

/-- `InMemoryStatsRepository.get_most_read_books`; `book_lookup` embeds
`self.book_repository.get_book_by_id`.  Unresolvable books are skipped by
the `if book:` guard after truncation to `limit`. -/
def get_most_read_books (store : List Progress) (user_id : Nat) (limit : Nat)
    (book_lookup : Nat → Option Book) : List (Book × ℚ) :=
  let all_progress := get_all_progress_for_user store user_id
  if all_progress = [] then []
  else
    let sorted_progress_tuples :=
      (latest_progress_per_book all_progress).insertionSort pctDesc
    (sorted_progress_tuples.take limit).filterMap fun dp =>
      (book_lookup dp.1).map fun book => (book, dp.2.percentage)

/-! Calendar formatting for `timestamp.strftime`, at the second-resolution
embedding of `datetime`: the civil date of a Unix timestamp via its day
number (Gregorian, the standard days-to-civil conversion), zero-padded. -/

/-- Gregorian civil date `(year, month, day)` of a day number counted from
1970-01-01. -/
def civil_from_days (z0 : Int) : Int × Nat × Nat :=
  let z := z0 + 719468
  let era : Int := z.fdiv 146097
  let doe : Nat := (z - era * 146097).toNat
  let yoe : Nat := (doe - doe / 1460 + doe / 36524 - doe / 146096) / 365
  let y : Int := (yoe : Int) + era * 400
  let doy : Nat := doe - (365 * yoe + yoe / 4 - yoe / 100)
  let mp : Nat := (5 * doy + 2) / 153
  let d : Nat := doy - (153 * mp + 2) / 5 + 1
  let m : Nat := if mp < 10 then mp + 3 else mp - 9
  (if m ≤ 2 then y + 1 else y, m, d)

/-- Zero-pad a number to two digits (`%m`, `%d`). -/
def pad2 (n : Nat) : String :=
  if n < 10 then "0" ++ toString n else toString n

/-- Zero-pad a year to four digits (`%Y`). -/
def pad4 (y : Int) : String :=
  if y < 0 then "-" ++ toString (-y)
  else if y < 10 then "000" ++ toString y
  else if y < 100 then "00" ++ toString y
  else if y < 1000 then "0" ++ toString y
  else toString y

/-- The `strftime` key of `get_reading_activity_over_time`: `"%Y-%m"` for
`period == "month"`, `"%Y"` for `period == "year"`, `"%Y-%m-%d"` otherwise
(the `else` default-to-day branch). -/
def period_key (period : String) (ts : Int) : String :=
  let ymd := civil_from_days (ts.fdiv 86400)
  if period = "month" then pad4 ymd.1 ++ "-" ++ pad2 ymd.2.1
  else if period = "year" then pad4 ymd.1
  else pad4 ymd.1 ++ "-" ++ pad2 ymd.2.1 ++ "-" ++ pad2 ymd.2.2

/-- `activity[period_key] += 1` on the insertion-ordered
`defaultdict(float)` (a fresh key starts at `0.0`). -/
def bump_activity : List (String × ℚ) → String → List (String × ℚ)
  | [], k => [(k, 1)]
  | (k0, v) :: rest, k =>
    if k0 = k then (k0, v + 1) :: rest else (k0, v) :: bump_activity rest k

/-- Ascending key order used by `dict(sorted(activity.items()))` (keys are
unique, so only the first component ever decides). -/
def keyAsc (a b : String × ℚ) : Prop := a.1 < b.1 ∨ a.1 = b.1

instance : DecidableRel keyAsc := fun a b => by unfold keyAsc; infer_instance

/-- `InMemoryStatsRepository.get_reading_activity_over_time`, with its
hard-coded `p.percentage >= 0.95` finish test. -/
def get_reading_activity_over_time (store : List Progress) (user_id : Nat)
    (period : String) : List (String × ℚ) :=
  let all_progress := get_all_progress_for_user store user_id
  if all_progress = [] then []
  else
    let activity := (latest_progress_per_book all_progress).foldl
      (fun acc dp =>
        if mkRat 95 100 ≤ dp.2.percentage then
          bump_activity acc (period_key period dp.2.timestamp)
        else acc)
      []
    activity.insertionSort keyAsc

/-- `InMemoryStatsRepository.get_average_read_percentage`. -/
def get_average_read_percentage (store : List Progress) (user_id : Nat) :
    Option ℚ :=
  let all_progress := get_all_progress_for_user store user_id
  if all_progress = [] then none
  else
    let latest := latest_progress_per_book all_progress
    if latest = [] then none
    else some ((latest.foldl (fun s dp => s + dp.2.percentage) 0) / latest.length)

/-! ### Concrete values used by the claims' worked examples -/

/-- Stored entry of the regression scenario: key `(1, some 1)`, timestamp 10. -/
def regOld : Progress := ⟨1, some 1, mkRat 1 2, "", "KOReader", some 1, 10⟩

/-- Regressing submission for the same key with the strictly smaller timestamp 5. -/
def regNew : Progress := ⟨1, some 1, mkRat 7 10, "", "KOReader", some 1, 5⟩

/-- Stored entry of the duplicate-key scenario: key `(2, some 2)`, timestamp 10. -/
def dupOld : Progress := ⟨2, some 1, mkRat 1 2, "", "KOReader", some 2, 10⟩

/-- Regressing submission for key `(2, some 2)` with timestamp 5. -/
def dupNew : Progress := ⟨2, some 1, mkRat 3 5, "", "KOReader", some 2, 5⟩

/-- Reading-time sample at `t = 1000 s`, percentage 0.10. -/
def rt1 : Progress := ⟨1, some 1, mkRat 1 10, "", "KOReader", some 1, 1000⟩

/-- Reading-time sample at `t = 2000 s`, percentage 0.30. -/
def rt2 : Progress := ⟨1, some 1, mkRat 3 10, "", "KOReader", some 1, 2000⟩

/-- Reading-time sample `7300 s` after `rt2` (beyond the 2-hour cap), percentage 0.35. -/
def rt3 : Progress := ⟨1, some 1, mkRat 35 100, "", "KOReader", some 1, 9300⟩

/-- Sample at `t = 1000 s` with percentage 0.30, for the regressing-percentage pair. -/
def rtDown1 : Progress := ⟨1, some 1, mkRat 3 10, "", "KOReader", some 1, 1000⟩

/-- Sample at `t = 2000 s` with the strictly smaller percentage 0.20. -/
def rtDown2 : Progress := ⟨1, some 1, mkRat 1 5, "", "KOReader", some 1, 2000⟩

/-- Book resolved for document 1. -/
def bkA : Book := ⟨1, "A", none⟩

/-- Book resolved for document 2. -/
def bkB : Book := ⟨2, "B", none⟩

/-- Book resolved for document 3. -/
def bkC : Book := ⟨3, "C", none⟩

/-- Representative entry of document 1 at percentage 0.9. -/
def mr1 : Progress := ⟨1, some 1, mkRat 9 10, "", "KOReader", some 1, 100⟩

/-- Representative entry of document 2 at percentage 0.4. -/
def mr2 : Progress := ⟨2, some 1, mkRat 4 10, "", "KOReader", some 1, 200⟩

/-- Representative entry of document 3 at percentage 0.99. -/
def mr3 : Progress := ⟨3, some 1, mkRat 99 100, "", "KOReader", some 1, 300⟩

/-- Book lookup that resolves documents 1, 2 and 3. -/
def lookupAll : Nat → Option Book := fun d =>
  if d = 1 then some bkA else if d = 2 then some bkB else if d = 3 then some bkC else none

/-- Book lookup that cannot resolve document 3. -/
def lookupNoC : Nat → Option Book := fun d =>
  if d = 1 then some bkA else if d = 2 then some bkB else none

/-- Cross-device scenario: document 1, device 1, `t = 1000`. -/
def cd1 : Progress := ⟨1, some 1, mkRat 1 10, "", "KOReader", some 1, 1000⟩

/-- Cross-device scenario: document 1, device 2 (same user), `t = 5000`. -/
def cd2 : Progress := ⟨1, some 1, mkRat 9 10, "", "KOReader", some 2, 5000⟩

/-- A finished entry (percentage 1.0) at the Unix epoch. -/
def fin1 : Progress := ⟨1, some 1, 1, "", "KOReader", some 1, 0⟩

/-! ### Order facts about the sort relations -/

instance : IsTotal Progress tsDesc :=
  ⟨fun a b => le_total b.timestamp a.timestamp⟩

instance : IsTrans Progress tsDesc :=
  ⟨fun _ _ _ h1 h2 => le_trans h2 h1⟩

instance : IsTotal Progress tsAsc :=
  ⟨fun a b => le_total a.timestamp b.timestamp⟩

instance : IsTrans Progress tsAsc :=
  ⟨fun _ _ _ h1 h2 => le_trans h1 h2⟩

instance : IsTotal (Nat × Progress) pctDesc :=
  ⟨fun a b => le_total b.2.percentage a.2.percentage⟩

instance : IsTrans (Nat × Progress) pctDesc :=
  ⟨fun _ _ _ h1 h2 => le_trans h2 h1⟩

instance : IsTotal Progress docTsDesc := by
  refine ⟨fun a b => ?_⟩
  rcases lt_trichotomy a.document_id b.document_id with h | h | h
  · exact Or.inr (Or.inl h)
  · rcases le_total b.timestamp a.timestamp with ht | ht
    · exact Or.inl (Or.inr ⟨h.symm, ht⟩)
    · exact Or.inr (Or.inr ⟨h, ht⟩)
  · exact Or.inl (Or.inl h)

instance : IsTrans Progress docTsDesc := by
  refine ⟨fun a b c h1 h2 => ?_⟩
  rcases h1 with h1 | ⟨h1e, h1t⟩ <;> rcases h2 with h2 | ⟨h2e, h2t⟩
  · exact Or.inl (lt_trans h2 h1)
  · exact Or.inl (h2e ▸ h1)
  · exact Or.inl (h1e ▸ h2)
  · exact Or.inr ⟨h2e.trans h1e, le_trans h2t h1t⟩

/-! ### Helper lemmas about the save loop and sorted heads -/

/-- The submitted progress value always ends up in the new store: either it
replaces a matching entry with a not-greater timestamp, or the trailing
append adds it. -/
theorem save_progress_loop_mem (p : Progress) :
    ∀ store : List Progress, p ∈ save_progress_loop p store false := by
  intro store
  induction store with
  | nil => simp [save_progress_loop]
  | cons e rest ih =>
    by_cases hk : e.document_id = p.document_id ∧ e.device_id = p.device_id
    · by_cases ht : p.timestamp ≥ e.timestamp
      · simp [save_progress_loop, hk, ht]
      · simp only [save_progress_loop, if_pos hk, if_neg ht]
        exact List.mem_cons_of_mem e ih
    · simp only [save_progress_loop, if_neg hk]
      exact List.mem_cons_of_mem e ih

/-- Entries whose key differs from the submitted progress's
`(document_id, device_id)` key are untouched by the save loop: any filter
that rejects every entry with the submitted key is invariant. -/
theorem save_progress_loop_filter (p : Progress) (pred : Progress → Bool)
    (hkey : ∀ e : Progress, e.document_id = p.document_id →
      e.device_id = p.device_id → pred e = false) :
    ∀ (store : List Progress) (b : Bool),
      (save_progress_loop p store b).filter pred = store.filter pred := by
  have hp : pred p = false := hkey p rfl rfl
  intro store
  induction store with
  | nil =>
    intro b
    cases b <;> simp [save_progress_loop, hp]
  | cons e rest ih =>
    intro b
    by_cases hk : e.document_id = p.document_id ∧ e.device_id = p.device_id
    · have he : pred e = false := hkey e hk.1 hk.2
      by_cases ht : p.timestamp ≥ e.timestamp
      · cases b with
        | true => simp [save_progress_loop, hk, ht, he, ih]
        | false => simp [save_progress_loop, hk, ht, he, hp, ih]
      · simp [save_progress_loop, hk, ht, he, ih]
    · simp only [save_progress_loop, if_neg hk]
      cases hpe : pred e <;> simp [List.filter_cons, hpe, ih]

/-- The head of the stable descending-timestamp sort of a nonempty list is a
member carrying the maximum timestamp. -/
theorem head_insertionSort_tsDesc (l : List Progress) (hl : l ≠ []) :
    ∃ r, (l.insertionSort tsDesc).head? = some r ∧ r ∈ l ∧
      ∀ q ∈ l, q.timestamp ≤ r.timestamp := by
  have hperm := List.perm_insertionSort tsDesc l
  have hsorted := List.sorted_insertionSort tsDesc l
  cases hs : l.insertionSort tsDesc with
  | nil =>
    rw [hs] at hperm
    exact absurd hperm.nil_eq.symm hl
  | cons r t =>
    refine ⟨r, rfl, ?_, ?_⟩
    · exact hperm.mem_iff.mp (hs ▸ List.mem_cons_self r t)
    · intro q hq
      have hq' : q ∈ r :: t := hs ▸ hperm.mem_iff.mpr hq
      rcases List.mem_cons.mp hq' with h | h
      · exact le_of_eq (congrArg Progress.timestamp h)
      · exact List.rel_of_sorted_cons (hs ▸ hsorted) q h

/-- Characterization of the shared lookup shape of `get_latest_progress` and
`get_progress_for_document_and_device`: `none` exactly on an empty filter,
and otherwise a maximal-timestamp member of the filter. -/
theorem lookup_head_spec (l : List Progress) :
    ((if l = [] then none else (l.insertionSort tsDesc).head?) = none ↔ l = []) ∧
    ∀ r, (if l = [] then none else (l.insertionSort tsDesc).head?) = some r →
      r ∈ l ∧ ∀ q ∈ l, q.timestamp ≤ r.timestamp := by
  by_cases hf : l = []
  · simp [hf]
  · obtain ⟨r0, hr0, hmem, hmax⟩ := head_insertionSort_tsDesc l hf
    constructor
    · simp [hf, hr0]
    · intro r hr
      rw [if_neg hf, hr0] at hr
      cases hr
      exact ⟨hmem, hmax⟩

end Kompanion

open Kompanion

/-! ### Claims -/

/-- C1. Refuted as stated, and the code contradicts its own intent comments:
on a submission whose timestamp is strictly less than the stored entry's for
the same `(document_id, device_id)` key, `save_progress` keeps the stored
entry but then also appends the rejected submission (the trailing
`if not updated` append fires although a matching entry was found), so the
store's contents are not "exactly unchanged": the stale entry is added. -/
theorem C1_regression_changes_store :
    (save_progress [regOld] regNew).1 = [regOld, regNew] ∧
    (save_progress [regOld] regNew).1 ≠ [regOld] ∧
    regNew.timestamp < regOld.timestamp ∧
    regNew.document_id = regOld.document_id ∧
    regNew.device_id = regOld.device_id := by
  decide

/-- C2 counterexample. `submit_progress` with percentage 1.5 (outside
`[0, 1]`) does not raise: it stores the constructed entry with the
out-of-range percentage unchanged, refuting "the call raises a validation
error synchronously and does not store anything". -/
theorem C2_out_of_range_percentage_stored :
    (submit_progress [] 1 1 (mkRat 3 2) none "KOReader" none 0).1 =
      [⟨1, some 1, mkRat 3 2, "", "KOReader", none, 0⟩] ∧
    ¬ mkRat 3 2 ≤ 1 := by
  decide

/-- C2 amended. `submit_progress` performs no validation of `percentage` at
all: for every argument list (any percentage, in range or not) the call
succeeds, the returned entry carries exactly the given percentage (no
clamping), and that entry is stored. -/
theorem C2_submit_progress_never_validates (store : List Progress)
    (user_id document_id : Nat) (percentage : ℚ) (progress_detail : Option String)
    (device_name : String) (device_id : Option Nat) (timestamp_int : Int) :
    (submit_progress store user_id document_id percentage progress_detail
        device_name device_id timestamp_int).2.percentage = percentage ∧
    (submit_progress store user_id document_id percentage progress_detail
        device_name device_id timestamp_int).2 ∈
      (submit_progress store user_id document_id percentage progress_detail
        device_name device_id timestamp_int).1 :=
  ⟨rfl, save_progress_loop_mem _ store⟩

/-- C3 counterexample. On a rejected regression (same key, strictly smaller
timestamp), `save_progress` returns the rejected submission itself, not the
previously stored entry, refuting "the call returns the previously stored
(existing) entry rather than p". -/
theorem C3_regression_returns_rejected_value :
    (save_progress [regOld] regNew).2 = regNew ∧
    regNew ≠ regOld ∧
    regNew.timestamp < regOld.timestamp ∧
    regNew.document_id = regOld.document_id ∧
    regNew.device_id = regOld.device_id := by
  decide

/-- C3 amended. `save_progress` always returns (a deep copy of) the
submitted progress value itself, whatever the store held, so callers cannot
detect a rejected no-op from the return value. -/
theorem C3_always_returns_submitted (store : List Progress) (p : Progress) :
    (save_progress store p).2 = p :=
  rfl

/-- C4. Refuted: starting from the empty store, saving an entry for key
`(2, some 2)` at timestamp 10 and then a second entry for the same key at
timestamp 5 leaves TWO stored entries for that key (the rejected stale
submission is appended next to the retained one), violating the at-most-one
entry-per-key invariant the claim states. -/
theorem C4_duplicate_entries_for_one_key :
    (save_progress (save_progress [] dupOld).1 dupNew).1 = [dupOld, dupNew] ∧
    ((save_progress (save_progress [] dupOld).1 dupNew).1.filter fun e =>
      decide (e.document_id = 2 ∧ e.device_id = some 2)).length = 2 := by
  decide

/-- C5. Confirmed. `get_latest_progress document_id user_id` is `none`
exactly when no stored entry matches that document and user, and any
returned entry is a matching entry of maximal timestamp across all devices;
`get_progress_for_document_and_device` has the same shape for the exact
`(document_id, device_id)` key; and saving progress whose `device_id`
differs from the queried device leaves the per-device lookup's result
unchanged. -/
theorem C5_latest_and_device_lookups (store : List Progress)
    (document_id user_id device_id : Nat) :
    (get_latest_progress store document_id user_id = none ↔
      store.filter (fun p =>
        decide (p.document_id = document_id ∧ p.user_id = some user_id)) = []) ∧
    (∀ r, get_latest_progress store document_id user_id = some r →
      r ∈ store.filter (fun p =>
        decide (p.document_id = document_id ∧ p.user_id = some user_id)) ∧
      ∀ q ∈ store.filter (fun p =>
        decide (p.document_id = document_id ∧ p.user_id = some user_id)),
        q.timestamp ≤ r.timestamp) ∧
    (get_progress_for_document_and_device store document_id device_id = none ↔
      store.filter (fun p =>
        decide (p.document_id = document_id ∧ p.device_id = some device_id)) = []) ∧
    (∀ r, get_progress_for_document_and_device store document_id device_id = some r →
      r ∈ store.filter (fun p =>
        decide (p.document_id = document_id ∧ p.device_id = some device_id)) ∧
      ∀ q ∈ store.filter (fun p =>
        decide (p.document_id = document_id ∧ p.device_id = some device_id)),
        q.timestamp ≤ r.timestamp) ∧
    (∀ p : Progress, p.device_id ≠ some device_id →
      get_progress_for_document_and_device (save_progress store p).1
        document_id device_id =
      get_progress_for_document_and_device store document_id device_id) := by
  have h1 := lookup_head_spec (store.filter fun p =>
    decide (p.document_id = document_id ∧ p.user_id = some user_id))
  have h2 := lookup_head_spec (store.filter fun p =>
    decide (p.document_id = document_id ∧ p.device_id = some device_id))
  refine ⟨h1.1, h1.2, h2.1, h2.2, ?_⟩
  intro p hp
  have hfilter := save_progress_loop_filter p
    (fun e => decide (e.document_id = document_id ∧ e.device_id = some device_id))
    (fun e _ hv => decide_eq_false fun hand => hp (hv ▸ hand.2)) store false
  show (if ((save_progress_loop p store false).filter fun e =>
      decide (e.document_id = document_id ∧ e.device_id = some device_id)) = []
    then none
    else (((save_progress_loop p store false).filter fun e =>
      decide (e.document_id = document_id ∧ e.device_id = some device_id)).insertionSort
        tsDesc).head?) = _
  rw [hfilter]
  rfl

/-- C5 witness: in the cross-device scenario (document 1, device 1 at
`t = 1000`, device 2 at `t = 5000`, same user), the entry returned by
`get_latest_progress` is the device-2 entry: it matches the query and
dominates the device-1 entry's timestamp. -/
theorem C5_latest_and_device_lookups_witness :
    cd2 ∈ ([cd1, cd2].filter fun p =>
      decide (p.document_id = 1 ∧ p.user_id = some 1)) ∧
    cd1.timestamp ≤ cd2.timestamp :=
  ⟨((C5_latest_and_device_lookups [cd1, cd2] 1 1 1).2.1 cd2 (by decide)).1,
   ((C5_latest_and_device_lookups [cd1, cd2] 1 1 1).2.1 cd2 (by decide)).2
     cd1 (by decide)⟩

/-- C6. Confirmed. The reading-time estimate is the zero duration whenever
the user has fewer than two entries; on the claim's worked example
(samples at `t = 1000 s` pct 0.10 and `t = 2000 s` pct 0.30) it is 1000 s; a
further sample 7300 s later (beyond the 2-hour cap) contributes nothing; and
a consecutive pair whose percentage does not strictly increase contributes
nothing. -/
theorem C6_reading_time_estimate :
    (∀ (store : List Progress) (user_id : Nat),
      (get_all_progress_for_user store user_id).length < 2 →
      get_total_reading_time_estimate store user_id = 0) ∧
    get_total_reading_time_estimate [rt1, rt2] 1 = 1000 ∧
    get_total_reading_time_estimate [rt1, rt2, rt3] 1 = 1000 ∧
    get_total_reading_time_estimate [rtDown1, rtDown2] 1 = 0 := by
  refine ⟨?_, by decide, by decide, by decide⟩
  intro store user_id h
  simp only [get_total_reading_time_estimate]
  rw [if_pos h]

/-- C6 witness: a user with a single sample gets the zero estimate. -/
theorem C6_reading_time_estimate_witness :
    get_total_reading_time_estimate [rt1] 1 = 0 :=
  C6_reading_time_estimate.1 [rt1] 1 (by decide)

/-- C7. Confirmed. `get_most_read_books` always returns at most `limit`
results sorted descending by percentage; on representative percentages
0.9, 0.4, 0.99 with `limit = 2` it returns the 0.99 document then the 0.9
document; and a document whose book cannot be resolved is silently skipped
(the call still succeeds, merely omitting that entry). -/
theorem C7_most_read_books :
    (∀ (store : List Progress) (user_id limit : Nat)
      (book_lookup : Nat → Option Book),
      (get_most_read_books store user_id limit book_lookup).length ≤ limit ∧
      List.Sorted (fun x y : Book × ℚ => y.2 ≤ x.2)
        (get_most_read_books store user_id limit book_lookup)) ∧
    get_most_read_books [mr1, mr2, mr3] 1 2 lookupAll =
      [(bkC, mkRat 99 100), (bkA, mkRat 9 10)] ∧
    get_most_read_books [mr1, mr2, mr3] 1 2 lookupNoC =
      [(bkA, mkRat 9 10)] := by
  refine ⟨?_, by decide, by decide⟩
  intro store user_id limit book_lookup
  by_cases hall : get_all_progress_for_user store user_id = []
  · simp [get_most_read_books, hall]
  · simp only [get_most_read_books, if_neg hall]
    constructor
    · exact le_trans (List.length_filterMap_le _ _) (List.length_take_le _ _)
    · have hs : List.Sorted pctDesc
          ((latest_progress_per_book
            (get_all_progress_for_user store user_id)).insertionSort pctDesc) :=
        List.sorted_insertionSort pctDesc _
      have ht := List.Pairwise.sublist (List.take_sublist limit _) hs
      refine List.pairwise_filterMap.mpr (ht.imp ?_)
      intro a b hab x hx y hy
      obtain ⟨u, _, hux⟩ := Option.map_eq_some'.mp hx
      obtain ⟨v, _, hvy⟩ := Option.map_eq_some'.mp hy
      rw [← hux, ← hvy]
      exact hab

/-- C8. Confirmed. `get_all_progress_for_user` returns exactly the stored
entries whose `user_id` equals the argument (as a permutation of that
filter), ordered descending on the `(document_id, timestamp)` key — hence
grouped by `document_id` with timestamps descending within each document. -/
theorem C8_all_progress_for_user_order (store : List Progress) (user_id : Nat) :
    (get_all_progress_for_user store user_id).Perm
      (store.filter fun p => decide (p.user_id = some user_id)) ∧
    List.Sorted docTsDesc (get_all_progress_for_user store user_id) :=
  ⟨List.perm_insertionSort docTsDesc _, List.sorted_insertionSort docTsDesc _⟩

/-- C9. Confirmed. For a user with no stored entries nothing raises:
`get_total_books_started` is 0, `get_average_read_percentage` is `none`,
`get_total_reading_time_estimate` is the zero duration,
`get_all_progress_for_user` is empty, `get_latest_progress` is `none` for
every document, and `get_progress_for_document_and_device` is `none` for
every key having no entry. -/
theorem C9_empty_user (store : List Progress) (user_id : Nat)
    (h : store.filter (fun p => decide (p.user_id = some user_id)) = []) :
    get_total_books_started store user_id = 0 ∧
    get_average_read_percentage store user_id = none ∧
    get_total_reading_time_estimate store user_id = 0 ∧
    get_all_progress_for_user store user_id = [] ∧
    (∀ document_id, get_latest_progress store document_id user_id = none) ∧
    (∀ document_id device_id,
      store.filter (fun p =>
        decide (p.document_id = document_id ∧ p.device_id = some device_id)) = [] →
      get_progress_for_document_and_device store document_id device_id = none) := by
  have hall : get_all_progress_for_user store user_id = [] := by
    simp only [get_all_progress_for_user, h]
    rfl
  refine ⟨?_, ?_, ?_, hall, ?_, ?_⟩
  · simp [get_total_books_started, hall]
  · simp [get_average_read_percentage, hall]
  · simp [get_total_reading_time_estimate, hall]
  · intro document_id
    have hf : store.filter (fun p =>
        decide (p.document_id = document_id ∧ p.user_id = some user_id)) = [] := by
      rw [List.filter_eq_nil_iff] at h ⊢
      intro a ha hdec
      exact h a ha (by simpa using (of_decide_eq_true hdec).2)
    show (if (store.filter fun p =>
        decide (p.document_id = document_id ∧ p.user_id = some user_id)) = []
      then none
      else ((store.filter fun p =>
        decide (p.document_id = document_id ∧ p.user_id = some user_id)).insertionSort
          tsDesc).head?) = none
    rw [hf, if_pos rfl]
  · intro document_id device_id hk
    show (if (store.filter fun p =>
        decide (p.document_id = document_id ∧ p.device_id = some device_id)) = []
      then none
      else ((store.filter fun p =>
        decide (p.document_id = document_id ∧ p.device_id = some device_id)).insertionSort
          tsDesc).head?) = none
    rw [hk, if_pos rfl]

/-- C9 witness: the empty store at user 1. -/
theorem C9_empty_user_witness :
    get_total_books_started [] 1 = 0 ∧
    get_average_read_percentage [] 1 = none ∧
    get_total_reading_time_estimate [] 1 = 0 ∧
    get_all_progress_for_user [] 1 = [] :=
  ⟨(C9_empty_user [] 1 rfl).1, (C9_empty_user [] 1 rfl).2.1,
   (C9_empty_user [] 1 rfl).2.2.1, (C9_empty_user [] 1 rfl).2.2.2.1⟩

/-- C10. Confirmed. For every period string other than exactly "month" and
"year" — for example "week" or "" — `get_reading_activity_over_time` does
not reject the period: it lands in the default day branch, so its result
(day-bucketed YYYY-MM-DD keys under the hard-coded 0.95 threshold) is
exactly that of period "day". -/
theorem C10_period_fallback (store : List Progress) (user_id : Nat)
    (period : String) (h1 : period ≠ "month") (h2 : period ≠ "year") :
    get_reading_activity_over_time store user_id period =
      get_reading_activity_over_time store user_id "day" := by
  have hpk : period_key period = period_key "day" := by
    funext ts
    simp only [period_key]
    rw [if_neg h1, if_neg h2,
      if_neg (by decide : ¬ ("day" : String) = "month"),
      if_neg (by decide : ¬ ("day" : String) = "year")]
  simp only [get_reading_activity_over_time, hpk]

/-- C10 witness: for the unrecognized period "week" on a store holding one
finished entry at the Unix epoch, the result equals the "day" result and is
the single day bucket "1970-01-01" with count 1. -/
theorem C10_period_fallback_witness :
    get_reading_activity_over_time [fin1] 1 "week" =
      get_reading_activity_over_time [fin1] 1 "day" ∧
    get_reading_activity_over_time [fin1] 1 "week" = [("1970-01-01", 1)] :=
  ⟨C10_period_fallback [fin1] 1 "week" (by decide) (by decide), by decide⟩
